import Mathlib

/-!
Shallow embedding of the typed API client layer of the repository: the
module that defines the error classes, `API_CONFIG`, `TokenManager`,
`RequestQueue`, `ApiClient` with its two interceptors and `makeRequest`,
and the domain modules such as `authApi`.  JavaScript values manipulated
by that module are embedded as the inductive type `JsVal`; the platform
primitives it relies on (`atob`, `JSON.parse`, `JSON.stringify`, string
coercion, property access) are modelled by executable Lean functions.
-/

/-- JavaScript values as the client module sees them.  `undefined` is the
JavaScript value `undefined`; `JSON.parse` never produces it, but property
access on an object lacking a key does.  Numbers are modelled as integers
(the module only ever compares and forwards them; fractional numerals are
outside the model and noted where relevant). -/
inductive JsVal where
  | undefined
  | null
  | bool (b : Bool)
  | num (n : Int)
  | str (s : String)
  | arr (elems : List JsVal)
  | obj (fields : List (String × JsVal))

/-- JavaScript truthiness: `undefined`, `null`, `false`, `0` and the empty
string are falsy; every object and array is truthy. -/
def jsTruthy : JsVal → Bool
  | .undefined => false
  | .null => false
  | .bool b => b
  | .num n => n != 0
  | .str s => s != ""
  | .arr _ => true
  | .obj _ => true

/-- Plain property read `v.key`.  Reading a property of `null` or
`undefined` throws a TypeError in JavaScript, modelled as `none`; on an
object the result is the stored value, or `undefined` when the key is
absent; on arrays and primitives every non-index key the module uses
reads as `undefined`. -/
def memberAccess : JsVal → String → Option JsVal
  | .null, _ => none
  | .undefined, _ => none
  | .obj fs, k => some ((fs.lookup k).getD .undefined)
  | .arr _, _ => some .undefined
  | _, _ => some .undefined

/-- Optional-chaining read `v?.key`: `undefined` instead of a TypeError
when the receiver is `null` or `undefined`. -/
def optChainGet (v : JsVal) (k : String) : JsVal :=
  match memberAccess v k with
  | none => .undefined
  | some w => w

/-- JavaScript `a || b`: the first operand when truthy, otherwise the
second. -/
def jsOr (a b : JsVal) : JsVal :=
  if jsTruthy a then a else b

/-- Whether `typeof v` is the string "object" (true for objects, arrays
and `null`). -/
def typeofIsObject : JsVal → Bool
  | .null => true
  | .obj _ => true
  | .arr _ => true
  | _ => false

def isUndef : JsVal → Bool
  | .undefined => true
  | _ => false

/-- The JavaScript `in` operator restricted to what the module needs:
key membership on objects; on arrays, `length` and numeric indices. -/
def inOperator (v : JsVal) (k : String) : Bool :=
  match v with
  | .obj fs => (fs.lookup k).isSome
  | .arr xs =>
    k = "length" ||
      (match k.toList with
       | [] => false
       | ds =>
         ds.all (fun c => '0' ≤ c && c ≤ '9') &&
           ds.foldl (fun acc c => acc * 10 + (c.toNat - 48)) 0 < xs.length)
  | _ => false

/-! ### The platform primitive `atob` (forgiving base64 decode) -/

/-- ASCII whitespace stripped by the forgiving-base64 algorithm. -/
def isB64Ws (c : Char) : Bool :=
  c = ' ' || c = '\t' || c = '\n' || c = '\r' || c = '\x0c'

/-- Value of a character in the standard base64 alphabet. -/
def b64Val (c : Char) : Option Nat :=
  if 'A' ≤ c ∧ c ≤ 'Z' then some (c.toNat - 65)
  else if 'a' ≤ c ∧ c ≤ 'z' then some (c.toNat - 97 + 26)
  else if '0' ≤ c ∧ c ≤ '9' then some (c.toNat - 48 + 52)
  else if c = '+' then some 62
  else if c = '/' then some 63
  else none

/-- Padding and length handling of forgiving base64: with a length that is
a multiple of four, up to two trailing `=` are removed; a remaining length
congruent to 1 modulo 4 is an error. -/
def b64Strip (cs : List Char) : Option (List Char) :=
  if cs.length % 4 = 0 then
    match cs.reverse with
    | '=' :: '=' :: rest => some rest.reverse
    | '=' :: rest => some rest.reverse
    | _ => some cs
  else if cs.length % 4 = 1 then none
  else some cs

/-- Six-bit groups to bytes: each quad yields three bytes; a trailing pair
yields one byte and a trailing triple two bytes (leftover bits dropped, as
the forgiving algorithm specifies). -/
def b64Bytes : List Nat → Option (List Nat)
  | [] => some []
  | [_] => none
  | [a, b] => some [a * 4 + b / 16]
  | [a, b, c] => some [a * 4 + b / 16, (b % 16) * 16 + c / 4]
  | a :: b :: c :: d :: rest =>
    match b64Bytes rest with
    | none => none
    | some tail =>
      some ((a * 4 + b / 16) :: ((b % 16) * 16 + c / 4) :: ((c % 4) * 64 + d) :: tail)

/-- Model of the platform `atob`, from characters to decoded bytes viewed
as characters (the decoded output here is always ASCII JSON text). -/
def atob (input : List Char) : Option (List Char) :=
  let cs := input.filter (fun c => !(isB64Ws c))
  match b64Strip cs with
  | none => none
  | some stripped =>
    match stripped.mapM b64Val with
    | none => none
    | some vals =>
      match b64Bytes vals with
      | none => none
      | some bytes => some (bytes.map Char.ofNat)

/-! ### The platform primitive `JSON.parse` -/

def jsonWs (c : Char) : Bool :=
  c = ' ' || c = '\t' || c = '\n' || c = '\r'

def skipWs : List Char → List Char
  | [] => []
  | c :: rest => if jsonWs c then skipWs rest else c :: rest

def digitVal (c : Char) : Option Nat :=
  if '0' ≤ c ∧ c ≤ '9' then some (c.toNat - 48) else none

def takeDigits : List Char → (List Nat × List Char)
  | [] => ([], [])
  | c :: rest =>
    match digitVal c with
    | some d =>
      let (ds, r) := takeDigits rest
      (d :: ds, r)
    | none => ([], c :: rest)

def digitsToNat (ds : List Nat) : Nat :=
  ds.foldl (fun acc d => acc * 10 + d) 0

def hexVal (c : Char) : Option Nat :=
  if '0' ≤ c ∧ c ≤ '9' then some (c.toNat - 48)
  else if 'a' ≤ c ∧ c ≤ 'f' then some (c.toNat - 97 + 10)
  else if 'A' ≤ c ∧ c ≤ 'F' then some (c.toNat - 65 + 10)
  else none

/-- Body of a JSON string literal after the opening quote: returns the
content and the input following the closing quote. -/
def parseJsonStr : Nat → List Char → Option (List Char × List Char)
  | 0, _ => none
  | _ + 1, [] => none
  | fuel + 1, c :: rest =>
    if c = '"' then some ([], rest)
    else if c = '\\' then
      match rest with
      | [] => none
      | e :: rest2 =>
        let cont := fun (ch : Char) (rs : List Char) =>
          match parseJsonStr fuel rs with
          | none => none
          | some (cs, r) => some (ch :: cs, r)
        if e = '"' then cont '"' rest2
        else if e = '\\' then cont '\\' rest2
        else if e = '/' then cont '/' rest2
        else if e = 'b' then cont '\x08' rest2
        else if e = 'f' then cont '\x0c' rest2
        else if e = 'n' then cont '\n' rest2
        else if e = 'r' then cont '\r' rest2
        else if e = 't' then cont '\t' rest2
        else if e = 'u' then
          match rest2 with
          | h1 :: h2 :: h3 :: h4 :: rest3 =>
            match hexVal h1, hexVal h2, hexVal h3, hexVal h4 with
            | some a, some b, some c2, some d =>
              cont (Char.ofNat (((a * 16 + b) * 16 + c2) * 16 + d)) rest3
            | _, _, _, _ => none
          | _ => none
        else none
    else
      match parseJsonStr fuel rest with
      | none => none
      | some (cs, r) => some (c :: cs, r)

/-- Integer numeral followed by anything other than a fraction or an
exponent (fractional and exponent numerals are outside the model; the
credential payloads the claims quantify over carry integer `exp`). -/
def numAfterDigits (n : Int) (r : List Char) : Option (JsVal × List Char) :=
  match r with
  | c :: _ =>
    if c = '.' || c = 'e' || c = 'E' then none else some (.num n, r)
  | [] => some (.num n, [])

/-- Parsing mode: a single value, the items of an array, or the members of
an object (with the part already parsed accumulated). -/
inductive PMode where
  | value
  | arrItems (acc : List JsVal)
  | objItems (acc : List (String × JsVal))

/-- Recursive-descent model of `JSON.parse`, fuelled so that the
definition is structural and computes by reduction. -/
def parseJ : Nat → PMode → List Char → Option (JsVal × List Char)
  | 0, _, _ => none
  | fuel + 1, .value, input =>
    match skipWs input with
    | [] => none
    | c :: rest =>
      if c = 'n' then
        match rest with
        | 'u' :: 'l' :: 'l' :: r => some (.null, r)
        | _ => none
      else if c = 't' then
        match rest with
        | 'r' :: 'u' :: 'e' :: r => some (.bool true, r)
        | _ => none
      else if c = 'f' then
        match rest with
        | 'a' :: 'l' :: 's' :: 'e' :: r => some (.bool false, r)
        | _ => none
      else if c = '"' then
        match parseJsonStr fuel rest with
        | none => none
        | some (cs, r) => some (.str (String.mk cs), r)
      else if c = '-' then
        match takeDigits rest with
        | ([], _) => none
        | (ds, r) => numAfterDigits (-(digitsToNat ds : Int)) r
      else if '0' ≤ c ∧ c ≤ '9' then
        match takeDigits (c :: rest) with
        | ([], _) => none
        | (ds, r) => numAfterDigits (digitsToNat ds) r
      else if c = '[' then
        match skipWs rest with
        | ']' :: r => some (.arr [], r)
        | other => parseJ fuel (.arrItems []) other
      else if c = '\x7b' then
        match skipWs rest with
        | '\x7d' :: r => some (.obj [], r)
        | other => parseJ fuel (.objItems []) other
      else none
  | fuel + 1, .arrItems acc, input =>
    match parseJ fuel .value input with
    | none => none
    | some (v, r) =>
      match skipWs r with
      | ',' :: r2 => parseJ fuel (.arrItems (acc ++ [v])) r2
      | ']' :: r2 => some (.arr (acc ++ [v]), r2)
      | _ => none
  | fuel + 1, .objItems acc, input =>
    match skipWs input with
    | '"' :: r =>
      match parseJsonStr fuel r with
      | none => none
      | some (key, r2) =>
        match skipWs r2 with
        | ':' :: r3 =>
          match parseJ fuel .value r3 with
          | none => none
          | some (v, r4) =>
            match skipWs r4 with
            | ',' :: r5 => parseJ fuel (.objItems (acc ++ [(String.mk key, v)])) r5
            | '\x7d' :: r5 => some (.obj (acc ++ [(String.mk key, v)]), r5)
            | _ => none
        | _ => none
    | _ => none

/-- Model of `JSON.parse` on decoded characters: a single value with only
whitespace around it.  Duplicate object keys are kept in order (the
payloads considered by the claims have none). -/
def parseJsonChars (cs : List Char) : Option JsVal :=
  match parseJ (2 * cs.length + 8) .value cs with
  | none => none
  | some (v, r) => if skipWs r = [] then some v else none

example : parseJsonChars "\x7b\"exp\":5\x7d".toList = some (.obj [("exp", .num 5)]) := rfl
example : parseJsonChars "\x7b\x7d".toList = some (.obj []) := rfl
example : parseJsonChars "hello".toList = none := rfl
example : atob "e30=".toList = some "\x7b\x7d".toList := rfl
example : atob "undefined".toList = none := rfl
example : atob "b".toList = none := rfl

/-! ### String conversion and numeric comparison, as JavaScript does them -/

/-- JavaScript `String(v)` coercion, fuelled for array contents: arrays
join their elements with commas, `null` and `undefined` elements become
empty, objects become "[object Object]". -/
def jsToStringF : Nat → JsVal → String
  | 0, _ => ""
  | fuel + 1, v =>
    match v with
    | .undefined => "undefined"
    | .null => "null"
    | .bool true => "true"
    | .bool false => "false"
    | .num n => toString n
    | .str s => s
    | .obj _ => "[object Object]"
    | .arr xs =>
      String.intercalate ","
        (xs.map fun x =>
          match x with
          | .null => ""
          | .undefined => ""
          | y => jsToStringF fuel y)

def jsToString (v : JsVal) : String := jsToStringF 16 v

/-- Numeric string after trimming whitespace: the empty string converts
to 0, an optional sign followed by digits to its value; anything else is
NaN (`none`).  Fractional, hexadecimal and exponent forms are outside the
model. -/
def strToNumber (s : List Char) : Option Int :=
  let t := ((s.dropWhile jsonWs).reverse.dropWhile jsonWs).reverse
  match t with
  | [] => some 0
  | '-' :: ds =>
    if ds ≠ [] ∧ ds.all (fun c => (digitVal c).isSome) then
      some (-(digitsToNat (ds.filterMap digitVal) : Int))
    else none
  | ds =>
    if ds.all (fun c => (digitVal c).isSome) then
      some (digitsToNat (ds.filterMap digitVal))
    else none

/-- JavaScript relational comparison `v < bound` against a number, as used
by `payload.exp < now`: `undefined` compares as NaN (false); `null` and
booleans convert to 0 and 0/1; strings convert through `strToNumber`;
objects convert to NaN; arrays are compared through their string form. -/
def jsLtNum (v : JsVal) (bound : Int) : Bool :=
  match v with
  | .num n => decide (n < bound)
  | .null => decide ((0 : Int) < bound)
  | .bool b => decide ((if b then (1 : Int) else 0) < bound)
  | .str s =>
    match strToNumber s.toList with
    | some n => decide (n < bound)
    | none => false
  | .arr xs =>
    match strToNumber (jsToString (.arr xs)).toList with
    | some n => decide (n < bound)
    | none => false
  | _ => false

/-- JavaScript `v >= bound` against a number; anything that does not
convert to a modelled number compares false. -/
def jsGeNum (v : JsVal) (bound : Int) : Bool :=
  match v with
  | .num n => decide (bound ≤ n)
  | _ => false

/-! ### The platform primitive `JSON.stringify` (used for coalescing keys) -/

/-- Escaping of a JSON string literal (quote and backslash; the control
characters the module would meet in practice are not escaped further). -/
def quoteJson (s : String) : String :=
  "\"" ++ String.mk (s.toList.flatMap fun c =>
    if c = '"' then ['\\', '"']
    else if c = '\\' then ['\\', '\\'] else [c]) ++ "\""

/-- Model of `JSON.stringify`, fuelled so it computes by reduction:
`undefined` stringifies to no value (`none`); inside arrays it renders as
`null`, inside objects the member is skipped. -/
def jsonStringifyF : Nat → JsVal → Option String
  | 0, _ => none
  | fuel + 1, v =>
    match v with
    | .undefined => none
    | .null => some "null"
    | .bool true => some "true"
    | .bool false => some "false"
    | .num n => some (toString n)
    | .str s => some (quoteJson s)
    | .arr xs =>
      some ("[" ++ String.intercalate ","
        (xs.map fun x =>
          match jsonStringifyF fuel x with
          | none => "null"
          | some s => s) ++ "]")
    | .obj fs =>
      some ("\x7b" ++ String.intercalate ","
        (fs.filterMap fun p =>
          match jsonStringifyF fuel p.2 with
          | none => none
          | some s => some (quoteJson p.1 ++ ":" ++ s)) ++ "\x7d")

def jsonStringify (v : JsVal) : Option String := jsonStringifyF 16 v

/-- Template-literal interpolation of a `JSON.stringify` result: when the
result is the value `undefined`, the string "undefined" is spliced in. -/
def stringifyForKey (v : JsVal) : String :=
  match jsonStringify v with
  | none => "undefined"
  | some s => s

/-! ### TokenManager -/

namespace TokenManager

/-- Persistent credential storage: `hasWindow` is whether a browser
`window` (and hence `localStorage`) exists; `stored` is the value under
the key "access_token". -/
structure BrowserStorage where
  hasWindow : Bool
  stored : Option String

/-- TokenManager.getToken: `null` without a window or when nothing is
stored (localStorage.getItem returns `null`, not `undefined`). -/
def getToken (st : BrowserStorage) : JsVal :=
  if st.hasWindow then
    match st.stored with
    | some s => .str s
    | none => .null
  else .null

/-- TokenManager.setToken: a no-op without a window. -/
def setToken (st : BrowserStorage) (t : String) : BrowserStorage :=
  if st.hasWindow then { st with stored := some t } else st

/-- TokenManager.removeToken: a no-op without a window. -/
def removeToken (st : BrowserStorage) : BrowserStorage :=
  if st.hasWindow then { st with stored := none } else st

/-- The split `token.split(".")` with the exact JavaScript semantics on
empty strings and adjacent separators. -/
def splitOnDot : List Char → List (List Char)
  | [] => [[]]
  | c :: rest =>
    let r := splitOnDot rest
    if c = '.' then [] :: r
    else
      match r with
      | h :: t => (c :: h) :: t
      | [] => [[c]]

/-- Segment `token.split(".")[1]`.  When index 1 is absent the JavaScript
value is `undefined`, and `atob` coerces its argument to the string
"undefined" (which then fails to decode). -/
def middleSegment (token : String) : List Char :=
  match (splitOnDot token.toList).get? 1 with
  | some seg => seg
  | none => "undefined".toList

/-- TokenManager.isTokenExpired: decode the middle segment with `atob`,
parse it as JSON, and compare `payload.exp < now`; any exception along
the way (bad base64, bad JSON, property read on `null`) is caught and
reported as expired.  `now` stands for `Date.now() / 1000`. -/
def isTokenExpired (token : String) (now : Int) : Bool :=
  match atob (middleSegment token) with
  | none => true
  | some decoded =>
    match parseJsonChars decoded with
    | none => true
    | some payload =>
      match memberAccess payload "exp" with
      | none => true
      | some e => jsLtNum e now

end TokenManager

example : TokenManager.isTokenExpired "a.b.c" 0 = true := rfl
example : TokenManager.isTokenExpired "a.aGVsbG8=.c" 0 = true := rfl
example : TokenManager.isTokenExpired "x.eyJleHAiOjV9.y" 6 = true := rfl
example : TokenManager.isTokenExpired "x.eyJleHAiOjV9.y" 4 = false := rfl
example : TokenManager.isTokenExpired "a.e30=.b" 1700000000 = false := rfl
example : TokenManager.isTokenExpired "" 0 = true := rfl

/-! ### Error classes and transport outcomes -/

/-- A raw transport failure as the response interceptor receives it:
either no response at all (network failure, timeout), or an HTTP response
with a status outside the 2xx range together with its decoded body. -/
inductive AxiosFailure where
  | network
  | httpResponse (status : Int) (body : JsVal)

/-- Outcome of one underlying transport call. -/
inductive AxiosResult where
  | success (body : JsVal)
  | failure (f : AxiosFailure)

/-- The fields every error class of the module carries: `name`
distinguishes the subclasses, `status` and `code` and `details` are the
extra fields set by the `ApiServiceError` constructor. -/
structure ApiServiceError where
  name : String
  message : String
  status : Int
  code : Option String
  details : JsVal

namespace ApiClient

/-- The message picked in handleError:
`data?.message || data?.msg || data?.error || 'An unexpected error occurred'`,
coerced to a string by the `Error` constructor. -/
def respMessage (body : JsVal) : String :=
  jsToString
    (jsOr (optChainGet body "message")
      (jsOr (optChainGet body "msg")
        (jsOr (optChainGet body "error") (.str "An unexpected error occurred"))))

/-- ApiClient.handleError: classification of a raw failure into the typed
error taxonomy, exactly as the switch on the status code does it. -/
def handleError : AxiosFailure → ApiServiceError
  | .network =>
    ⟨"NetworkError", "Network connection failed. Please check your internet connection.",
      0, some "NETWORK_ERROR", .undefined⟩
  | .httpResponse status body =>
    if status = 400 then
      ⟨"ValidationError", respMessage body, 400, some "VALIDATION_ERROR", optChainGet body "errors"⟩
    else if status = 401 then
      ⟨"AuthenticationError", respMessage body, 401, some "AUTHENTICATION_ERROR", .undefined⟩
    else if status = 403 then
      ⟨"AuthorizationError", respMessage body, 403, some "AUTHORIZATION_ERROR", .undefined⟩
    else if status = 404 then
      ⟨"NotFoundError", respMessage body, 404, some "NOT_FOUND", .undefined⟩
    else if status = 429 then
      ⟨"ApiServiceError", "Too many requests. Please try again later.", 429,
        some "RATE_LIMIT_EXCEEDED", .undefined⟩
    else if status = 500 ∨ status = 502 ∨ status = 503 ∨ status = 504 then
      ⟨"ServerError", "Server is currently unavailable. Please try again later.", 500,
        some "SERVER_ERROR", .undefined⟩
    else
      ⟨"ApiServiceError", respMessage body, status, none, .undefined⟩

/-- The response-success handling inside makeRequest: when the body is a
truthy value of type "object" that has a `data` member with a defined
value, return that member, otherwise the body itself. -/
def unwrapData (body : JsVal) : JsVal :=
  if jsTruthy body && typeofIsObject body then
    if inOperator body "data" && !(isUndef (optChainGet body "data")) then
      optChainGet body "data"
    else body
  else body

end ApiClient

/-! ### RequestQueue (the request coalescer) -/

namespace RequestQueue

/-- An axios request configuration as the coalescer sees it; `params` and
`data` are `undefined` when the call site does not pass them. -/
structure AxiosRequestConfig where
  method : String
  url : String
  params : JsVal
  data : JsVal

/-- RequestQueue.generateKey: the template literal
method-url-stringify(params)-stringify(data). -/
def generateKey (cfg : AxiosRequestConfig) : String :=
  cfg.method ++ "-" ++ cfg.url ++ "-" ++ stringifyForKey cfg.params ++ "-" ++
    stringifyForKey cfg.data

/-- State of the coalescer: the pending map from keys to promises
(promises are identified by a number), the next fresh promise identity,
and the keys for which a `finally` cleanup callback has been attached so
far (each miss attaches exactly one). -/
structure QueueState where
  pending : List (String × Nat)
  nextId : Nat
  finalizers : List String

/-- RequestQueue.deduplicate up to the synchronous part that registers the
promise: a hit returns the stored promise without invoking the executor
and without attaching anything; a miss invokes the executor, attaches one
`finally` cleanup, and stores the promise.  The returned Bool is whether
the executor was invoked. -/
def dedupe (st : QueueState) (cfg : AxiosRequestConfig) : QueueState × Nat × Bool :=
  let key := generateKey cfg
  match st.pending.lookup key with
  | some pid => (st, pid, false)
  | none =>
    ({ pending := (key, st.nextId) :: st.pending,
       nextId := st.nextId + 1,
       finalizers := key :: st.finalizers }, st.nextId, true)

/-- The `finally` cleanup of the promise stored under `key`, run once when
that promise settles, with either outcome: it deletes the key from the
pending map. -/
def settleKey (st : QueueState) (key : String) : QueueState :=
  { st with pending := st.pending.filter (fun p => p.1 != key) }

end RequestQueue

/-! ### The interceptors -/

/-- Request headers as a finite map written by assignment. -/
def setHeader (hs : List (String × String)) (k v : String) : List (String × String) :=
  (k, v) :: hs.filter (fun p => p.1 != k)

/-- A request configuration at the request-interceptor boundary. -/
structure ReqConfig where
  method : String
  url : String
  headers : List (String × String)

/-- `window.location` state for the 401 redirect. -/
structure Location where
  pathname : String
  href : String

/-- The browser-global state the interceptors touch. -/
structure Browser where
  storage : TokenManager.BrowserStorage
  location : Location

def charsStartWith : List Char → List Char → Bool
  | [], _ => true
  | _ :: _, [] => false
  | a :: as, b :: bs => a = b && charsStartWith as bs

def charsContain (pat : List Char) : List Char → Bool
  | [] => pat.isEmpty
  | c :: rest => charsStartWith pat (c :: rest) || charsContain pat rest

/-- `s.includes(pat)` on strings. -/
def strContains (s pat : String) : Bool :=
  charsContain pat.toList s.toList

namespace ApiClient

/-- Guard of the token attachment, `token && !isTokenExpired(token)`
with the short-circuit of `&&`: a falsy token (null or the empty string)
never reaches isTokenExpired. -/
def tokenExpiredJs (v : JsVal) (now : Int) : Bool :=
  match v with
  | .str s => TokenManager.isTokenExpired s now
  | _ => true

def strContent : JsVal → String
  | .str s => s
  | _ => ""

/-- ApiClient request interceptor: attach the bearer header when the
stored token is truthy, unexpired and not aimed at the two auth bootstrap
endpoints; then set the content type (form encoding for login-init, JSON
for everything else). -/
def requestInterceptor (st : TokenManager.BrowserStorage) (now : Int)
    (cfg : ReqConfig) : ReqConfig :=
  let token := TokenManager.getToken st
  let isAuthEndpoint := cfg.url == "/auth/login-init" || cfg.url == "/auth/verify-otp"
  let cfg1 :=
    if jsTruthy token && !(tokenExpiredJs token now) && !isAuthEndpoint then
      { cfg with headers := setHeader cfg.headers "Authorization" ("Bearer " ++ strContent token) }
    else cfg
  let ct :=
    if cfg.url == "/auth/login-init" then "application/x-www-form-urlencoded"
    else "application/json"
  { cfg1 with headers := setHeader cfg1.headers "Content-Type" ct }

/-- ApiClient response interceptor, failure branch.  `resp` is
`error.response` (absent on network failure), `retryFlag` the value of
`originalRequest._retry` (the module never assigns this property, so it
is `undefined` on every request it makes; the returned second component
is the flag after handling, which the code leaves untouched).  On a 401
with a falsy flag the token is removed and, when a window exists and the
path does not include "/login", `location.href` is set to "/".  The
handler then throws `handleError` of the raw error. -/
def respInterceptorOnError (b : Browser) (resp : Option (Int × JsVal))
    (retryFlag : JsVal) : Browser × JsVal × ApiServiceError :=
  let is401 : Bool := match resp with | some (s, _) => s == 401 | none => false
  let b1 :=
    if is401 && !(jsTruthy retryFlag) then
      let cleared := { b with storage := TokenManager.removeToken b.storage }
      if b.storage.hasWindow && !(strContains b.location.pathname "/login") then
        { cleared with location := { cleared.location with href := "/" } }
      else cleared
    else b
  let rawFailure :=
    match resp with
    | some (s, d) => AxiosFailure.httpResponse s d
    | none => AxiosFailure.network
  (b1, retryFlag, handleError rawFailure)

/-! ### makeRequest with the retry recursion -/

/-- The configuration constants of the module. -/
structure ApiConfig where
  timeout : Nat
  retryAttempts : Nat
  retryDelay : Nat

def API_CONFIG : ApiConfig := ⟨30000, 3, 1000⟩

/-- Observable settlement of one logical call: fulfilled, rejected, or
never settled (`hangs`: the promise chain waits on itself). -/
inductive CallOutcome where
  | success (v : JsVal)
  | failure (e : ApiServiceError)
  | hangs

/-- The error object the executor catch block receives, viewed as the
JavaScript object it is: the `ApiServiceError` thrown by the response
interceptor, whose own fields are name, message, status, code and
details.  It has no `response` property. -/
def errToJsObj (e : ApiServiceError) : JsVal :=
  .obj [("name", .str e.name), ("message", .str e.message),
        ("status", .num e.status),
        ("code", match e.code with | some c => .str c | none => .undefined),
        ("details", e.details)]

/-- The retry guard `!error.response || error.response.status >= 500`,
evaluated on the caught error object (the second disjunct is only reached
when `response` is truthy, which never happens for the interceptor-thrown
errors; the total model still evaluates it harmlessly). -/
def shouldRetry (errObj : JsVal) : Bool :=
  !(jsTruthy (optChainGet errObj "response")) ||
    jsGeNum (optChainGet (optChainGet errObj "response") "status") 500

/-- One logical call through `deduplicate` and the executor, as a function
of the per-attempt transport outcomes.  The Bool argument is whether the
coalescing key of this very call is already in the pending map when
makeRequest runs: the initial entry from a public method finds it absent;
the recursive retry call `makeRequest(config, retryCount + 1)` runs
inside the executor of the still-pending promise, so deduplicate finds
the key present and returns that pending promise itself — the executor
then resolves with a promise that settles only when the executor settles,
and the call never settles (`hangs`).  The fuel argument only bounds the
recursion depth so that the definition is structural; any fuel above the
retry budget is never exhausted.  The second component of the result
collects the backoff delays actually awaited, in order. -/
def makeRequestFuel (transport : Nat → AxiosResult) :
    Nat → Bool → Nat → CallOutcome × List Nat
  | _, true, _ => (.hangs, [])
  | 0, false, _ => (.hangs, [])
  | fuel + 1, false, retryCount =>
    match transport retryCount with
    | .success body => (.success (unwrapData body), [])
    | .failure f =>
      let err := handleError f
      if retryCount < API_CONFIG.retryAttempts then
        if shouldRetry (errToJsObj err) then
          let d := API_CONFIG.retryDelay * 2 ^ retryCount
          let k := makeRequestFuel transport fuel true (retryCount + 1)
          (k.1, d :: k.2)
        else (.failure err, [])
      else (.failure err, [])

/-- A logical call as issued by the public HTTP methods: retryCount 0 and
the coalescing key not yet pending. -/
def makeRequest (transport : Nat → AxiosResult) : CallOutcome × List Nat :=
  makeRequestFuel transport (API_CONFIG.retryAttempts + 2) false 0

end ApiClient

/-! ### authApi.logout -/

namespace authApi

/-- authApi.logout: await the POST /auth/logout call and clear the token
in a `finally`.  The `finally` block runs when the awaited promise
settles in either way; when the call never settles, control never reaches
it and the storage is left as it was. -/
def logout (transport : Nat → AxiosResult) (st : TokenManager.BrowserStorage) :
    ApiClient.CallOutcome × TokenManager.BrowserStorage :=
  match (ApiClient.makeRequest transport).1 with
  | .hangs => (.hangs, st)
  | out => (out, TokenManager.removeToken st)

end authApi

/-! ### Claim-side (specification-worded) definitions -/

/-- The TypedError taxonomy named by the specification. -/
inductive ErrorKind where
  | network
  | validation
  | authentication
  | authorization
  | notFound
  | rateLimited
  | server
  | generic
deriving DecidableEq

/-- Modelled from the spec words of the classification table: no response
maps to Network; with a response, 400 to Validation, 401 to
Authentication, 403 to Authorization, 404 to NotFound, 429 to
RateLimited, 500/502/503/504 to Server, anything else to Generic. -/
def claimClassification : AxiosFailure → ErrorKind
  | .network => .network
  | .httpResponse status _ =>
    if status = 400 then .validation
    else if status = 401 then .authentication
    else if status = 403 then .authorization
    else if status = 404 then .notFound
    else if status = 429 then .rateLimited
    else if status = 500 ∨ status = 502 ∨ status = 503 ∨ status = 504 then .server
    else .generic

/-- Reading the taxonomy kind off an error value produced by the module,
through the subclass name and the rate-limit code. -/
def errorKindOf (e : ApiServiceError) : ErrorKind :=
  if e.name = "NetworkError" then .network
  else if e.name = "ValidationError" then .validation
  else if e.name = "AuthenticationError" then .authentication
  else if e.name = "AuthorizationError" then .authorization
  else if e.name = "NotFoundError" then .notFound
  else if e.name = "ServerError" then .server
  else if e.code = some "RATE_LIMIT_EXCEEDED" then .rateLimited
  else .generic

/-- Kinds the specification allows to be retried. -/
def specRetryable : ErrorKind → Bool
  | .network => true
  | .server => true
  | _ => false

/-- Spec-side unwrapping, following the words of the specification: if
the decoded body is an object containing a `data` field whose value is
defined, return that nested value; otherwise return the decoded body
as-is. -/
def specUnwrap (body : JsVal) : JsVal :=
  match body with
  | .obj fields =>
    match fields.lookup "data" with
    | some v => if isUndef v then body else v
    | none => body
  | _ => body

/-! ### Helper lemmas -/

/-- A key absent from an association list stays absent after any filter. -/
theorem lookup_none_filter {β : Type} (k : String) (q : String × β → Bool) :
    ∀ l : List (String × β), l.lookup k = none → (l.filter q).lookup k = none
  | [], _ => rfl
  | (a, b) :: t, h => by
    have hcases : (k == a) = false ∨ (k == a) = true := by
      cases (k == a) <;> simp
    have hka : (k == a) = false := by
      rcases hcases with hc | hc
      · exact hc
      · exfalso
        simp only [List.lookup, hc] at h
        exact Option.noConfusion h
    have ht : t.lookup k = none := by
      simpa only [List.lookup, hka] using h
    cases hq : q (a, b) with
    | true =>
      simp only [List.filter, hq, List.lookup, hka]
      exact lookup_none_filter k q t ht
    | false =>
      simp only [List.filter, hq]
      exact lookup_none_filter k q t ht

/-- Reading one header after writing a different one reads through to the
headers before the write (minus any old copies of the written key). -/
theorem lookup_setHeader_other (hs : List (String × String)) (k k2 v : String)
    (h : (k == k2) = false) :
    (setHeader hs k2 v).lookup k = (hs.filter (fun p => p.1 != k2)).lookup k := by
  simp only [setHeader, List.lookup, h]

/-- One unfolding step of the makeRequest executor recursion. -/
theorem makeRequestFuel_step (transport : Nat → AxiosResult) (fuel r : Nat) :
    ApiClient.makeRequestFuel transport (fuel + 1) false r =
      (match transport r with
       | .success body => (.success (ApiClient.unwrapData body), [])
       | .failure f =>
         let err := ApiClient.handleError f
         if r < ApiClient.API_CONFIG.retryAttempts then
           if ApiClient.shouldRetry (ApiClient.errToJsObj err) then
             let d := ApiClient.API_CONFIG.retryDelay * 2 ^ r
             let k := ApiClient.makeRequestFuel transport fuel true (r + 1)
             (k.1, d :: k.2)
           else (.failure err, [])
         else (.failure err, [])) := rfl

/-- The unwrapping performed on a successful body agrees with the
specification wording. -/
theorem unwrapData_eq_specUnwrap (body : JsVal) :
    ApiClient.unwrapData body = specUnwrap body := by
  cases body with
  | obj fields =>
    simp only [ApiClient.unwrapData, specUnwrap, jsTruthy, typeofIsObject, inOperator,
      optChainGet, memberAccess]
    cases h : fields.lookup "data" with
    | none => simp [h]
    | some v => cases v <;> simp [h, isUndef]
  | undefined => rfl
  | null => rfl
  | bool b => cases b <;> rfl
  | num n => simp [ApiClient.unwrapData, specUnwrap, jsTruthy, typeofIsObject]
  | str s => simp [ApiClient.unwrapData, specUnwrap, jsTruthy, typeofIsObject]
  | arr xs => rfl

/-- With a window, a stored unexpired token and a non-bootstrap URL, the
request interceptor writes the bearer header. -/
theorem attach_core (st : TokenManager.BrowserStorage) (now : Int) (cfg : ReqConfig) (t : String)
    (hw : st.hasWindow = true) (hs : st.stored = some t)
    (hexp : TokenManager.isTokenExpired t now = false)
    (hu1 : cfg.url ≠ "/auth/login-init") (hu2 : cfg.url ≠ "/auth/verify-otp") :
    (ApiClient.requestInterceptor st now cfg).headers.lookup "Authorization" =
      some ("Bearer " ++ t) := by
  have htok : TokenManager.getToken st = .str t := by
    simp [TokenManager.getToken, hw, hs]
  have hne : t ≠ "" := by
    intro h0
    rw [h0] at hexp
    rw [show TokenManager.isTokenExpired "" now = true from rfl] at hexp
    cases hexp
  have hcond : (jsTruthy (TokenManager.getToken st) &&
      !(ApiClient.tokenExpiredJs (TokenManager.getToken st) now) &&
      !(cfg.url == "/auth/login-init" || cfg.url == "/auth/verify-otp")) = true := by
    rw [htok]
    simp [jsTruthy, ApiClient.tokenExpiredJs, hexp, hne, hu1, hu2]
  simp only [ApiClient.requestInterceptor, hcond, if_true, ApiClient.strContent, htok]
  rw [lookup_setHeader_other _ _ _ _ (by rfl)]
  simp [jsTruthy, ApiClient.tokenExpiredJs, hexp, hne, hu1, hu2, setHeader,
    List.filter, List.lookup]

/-- When the attachment guard is false, the interceptor adds no bearer
header (given none was present on the outgoing configuration). -/
theorem noattach_core (st : TokenManager.BrowserStorage) (now : Int) (cfg : ReqConfig)
    (hcfg : cfg.headers.lookup "Authorization" = none)
    (hcond : (jsTruthy (TokenManager.getToken st) &&
      !(ApiClient.tokenExpiredJs (TokenManager.getToken st) now) &&
      !(cfg.url == "/auth/login-init" || cfg.url == "/auth/verify-otp")) = false) :
    (ApiClient.requestInterceptor st now cfg).headers.lookup "Authorization" = none := by
  simp only [ApiClient.requestInterceptor, hcond, Bool.false_eq_true, if_false]
  rw [lookup_setHeader_other _ _ _ _ (by rfl)]
  exact lookup_none_filter _ _ _ hcfg

/-! ### Claim theorems -/

/-- Transport behaviour for the C1 failing input: every attempt answers
HTTP 400 with a validation message. -/
def transport400 : Nat → AxiosResult :=
  fun _ => .failure (.httpResponse 400 (.obj [("message", .str "bad input")]))

/-- C1: the claim says a failure is retried only when it is a Network or
a 5xx Server failure, with at most 4 tries, delays 1000/2000/4000 ms, and
the final failure surfaced with its classification unchanged.  The code
violates this: the response interceptor replaces the raw error with an
ApiServiceError that has no `response` field, so the retry guard judges
even a 400 Validation failure retryable (first conjunct), although the
specification marks Validation non-retryable (second conjunct); the call
then sleeps the base delay once and re-enters makeRequest, whose
deduplicate call returns the still-pending promise of the very same call,
so the promise never settles: one transport attempt, one 1000 ms delay,
no surfaced error (third conjunct). -/
theorem claim_C1_retry_guard_and_self_coalescing :
    ApiClient.shouldRetry (ApiClient.errToJsObj (ApiClient.handleError
      (.httpResponse 400 (.obj [("message", .str "bad input")])))) = true ∧
    specRetryable (claimClassification
      (.httpResponse 400 (.obj [("message", .str "bad input")]))) = false ∧
    ApiClient.makeRequest transport400 = (ApiClient.CallOutcome.hangs, [1000]) :=
  ⟨rfl, rfl, rfl⟩

/-- C2: two concurrent calls whose configurations agree on method, url,
params and body coalesce: the first invokes the executor, the second gets
the same stored promise without a second invocation, exactly one cleanup
callback is attached for the key, and when the shared promise settles the
cleanup removes the pending entry. -/
theorem claim_C2_coalescer_single_flight (st : RequestQueue.QueueState)
    (cfg1 cfg2 : RequestQueue.AxiosRequestConfig)
    (hm : cfg1.method = cfg2.method) (hu : cfg1.url = cfg2.url)
    (hp : cfg1.params = cfg2.params) (hd : cfg1.data = cfg2.data)
    (habsent : st.pending.lookup (RequestQueue.generateKey cfg1) = none) :
    (RequestQueue.dedupe st cfg1).2.2 = true ∧
    (RequestQueue.dedupe (RequestQueue.dedupe st cfg1).1 cfg2).2.2 = false ∧
    (RequestQueue.dedupe (RequestQueue.dedupe st cfg1).1 cfg2).2.1 =
      (RequestQueue.dedupe st cfg1).2.1 ∧
    (RequestQueue.dedupe (RequestQueue.dedupe st cfg1).1 cfg2).1.finalizers =
      RequestQueue.generateKey cfg1 :: st.finalizers ∧
    ((RequestQueue.settleKey (RequestQueue.dedupe (RequestQueue.dedupe st cfg1).1 cfg2).1
        (RequestQueue.generateKey cfg1)).pending.lookup (RequestQueue.generateKey cfg1)) =
      none := by
  have hkey : RequestQueue.generateKey cfg2 = RequestQueue.generateKey cfg1 := by
    unfold RequestQueue.generateKey
    rw [hm, hu, hp, hd]
  have h1 : RequestQueue.dedupe st cfg1 =
      ({ pending := (RequestQueue.generateKey cfg1, st.nextId) :: st.pending,
         nextId := st.nextId + 1,
         finalizers := RequestQueue.generateKey cfg1 :: st.finalizers }, st.nextId, true) := by
    simp only [RequestQueue.dedupe]
    rw [habsent]
  have h2 : RequestQueue.dedupe (RequestQueue.dedupe st cfg1).1 cfg2 =
      ((RequestQueue.dedupe st cfg1).1, st.nextId, false) := by
    rw [h1]
    simp only [RequestQueue.dedupe]
    rw [hkey]
    simp [List.lookup]
  refine ⟨by rw [h1], by rw [h2], by rw [h2, h1], by rw [h2, h1], ?_⟩
  rw [h2, h1]
  unfold RequestQueue.settleKey
  simp only [List.filter]
  have hhead : ((RequestQueue.generateKey cfg1, st.nextId).1 !=
      RequestQueue.generateKey cfg1) = false := by
    simp
  rw [hhead]
  exact lookup_none_filter _ _ _ habsent

/-- C2 witness: two identical GET /book-seva calls against the empty
queue coalesce into one executor invocation. -/
theorem claim_C2_witness :
    (RequestQueue.dedupe ⟨[], 0, []⟩ ⟨"GET", "/book-seva", .undefined, .undefined⟩).2.2 = true ∧
    (RequestQueue.dedupe (RequestQueue.dedupe ⟨[], 0, []⟩
        ⟨"GET", "/book-seva", .undefined, .undefined⟩).1
      ⟨"GET", "/book-seva", .undefined, .undefined⟩).2.2 = false :=
  ⟨(claim_C2_coalescer_single_flight ⟨[], 0, []⟩ ⟨"GET", "/book-seva", .undefined, .undefined⟩
      ⟨"GET", "/book-seva", .undefined, .undefined⟩ rfl rfl rfl rfl rfl).1,
   (claim_C2_coalescer_single_flight ⟨[], 0, []⟩ ⟨"GET", "/book-seva", .undefined, .undefined⟩
      ⟨"GET", "/book-seva", .undefined, .undefined⟩ rfl rfl rfl rfl rfl).2.1⟩

/-- C3 counterexample: the token "a.e30=.b" decodes (its middle segment
is the base64 of the empty JSON object), carries no `exp` at all — so no
expiry lies in the future — and yet isTokenExpired reports false, because
the JavaScript comparison `undefined < now` is false.  This refutes the
claim that false is returned only for a well-formed token whose `exp`
lies in the future. -/
theorem claim_C3_counterexample :
    TokenManager.isTokenExpired "a.e30=.b" 1700000000 = false ∧
    atob (TokenManager.middleSegment "a.e30=.b") = some ("\x7b\x7d".toList) ∧
    parseJsonChars ("\x7b\x7d".toList) = some (.obj []) ∧
    memberAccess (.obj []) "exp" = some .undefined :=
  ⟨rfl, rfl, rfl, rfl⟩

/-- C3 amended: isTokenExpired returns true when the middle segment is
not decodable base64, when the decoded text is not parseable JSON, and
when the payload has a numeric `exp` below the current time; conversely a
false answer means the token decoded to a JSON payload whose `exp`
member, under the JavaScript `<` comparison against the current time,
does not compare less — which includes an absent `exp` (undefined
compares false), not only a future one. -/
theorem claim_C3_token_expiry_amended (t : String) (now : Int) :
    (atob (TokenManager.middleSegment t) = none →
      TokenManager.isTokenExpired t now = true) ∧
    (∀ decoded, atob (TokenManager.middleSegment t) = some decoded →
      parseJsonChars decoded = none → TokenManager.isTokenExpired t now = true) ∧
    (∀ decoded payload n, atob (TokenManager.middleSegment t) = some decoded →
      parseJsonChars decoded = some payload →
      memberAccess payload "exp" = some (.num n) → n < now →
      TokenManager.isTokenExpired t now = true) ∧
    (TokenManager.isTokenExpired t now = false →
      ∃ decoded payload e, atob (TokenManager.middleSegment t) = some decoded ∧
        parseJsonChars decoded = some payload ∧
        memberAccess payload "exp" = some e ∧ jsLtNum e now = false) := by
  refine ⟨?_, ?_, ?_, ?_⟩
  · intro h
    simp [TokenManager.isTokenExpired, h]
  · intro d hA hP
    simp [TokenManager.isTokenExpired, hA, hP]
  · intro d p n hA hP hM hlt
    simp [TokenManager.isTokenExpired, hA, hP, hM, jsLtNum, hlt]
  · intro h
    rcases hA : atob (TokenManager.middleSegment t) with _ | d
    · simp [TokenManager.isTokenExpired, hA] at h
    · rcases hP : parseJsonChars d with _ | p
      · simp [TokenManager.isTokenExpired, hA, hP] at h
      · rcases hM : memberAccess p "exp" with _ | e
        · simp [TokenManager.isTokenExpired, hA, hP, hM] at h
        · refine ⟨d, p, e, rfl, hP, hM, ?_⟩
          simpa [TokenManager.isTokenExpired, hA, hP, hM] using h

/-- C3 witness: a token with an undecodable middle segment, one with
non-JSON base64, and one whose `exp` 5 lies before time 6 are all
reported expired. -/
theorem claim_C3_witness :
    TokenManager.isTokenExpired "a.b.c" 0 = true ∧
    TokenManager.isTokenExpired "x.aGVsbG8=.y" 0 = true ∧
    TokenManager.isTokenExpired "x.eyJleHAiOjV9.y" 6 = true :=
  ⟨(claim_C3_token_expiry_amended "a.b.c" 0).1 rfl,
   (claim_C3_token_expiry_amended "x.aGVsbG8=.y" 0).2.1 ("hello".toList) rfl rfl,
   (claim_C3_token_expiry_amended "x.eyJleHAiOjV9.y" 6).2.2.1
     ("\x7b\"exp\":5\x7d".toList) (.obj [("exp", .num 5)]) 5 rfl rfl rfl (by norm_num)⟩

/-- C4 counterexample: the claim says a retry flag on the request
prevents repeated redirects from retried sub-calls.  The module reads
`_retry` but never assigns it: after a 401 is handled the flag is still
undefined (first conjunct), so handling a second 401 carrying the same
request state performs the clear-and-redirect again (second and third
conjuncts). -/
theorem claim_C4_counterexample :
    (ApiClient.respInterceptorOnError ⟨⟨true, some "tok"⟩, ⟨"/dashboard", "/dashboard"⟩⟩
        (some (401, .obj [])) .undefined).2.1 = JsVal.undefined ∧
    (ApiClient.respInterceptorOnError ⟨⟨true, some "tok2"⟩, ⟨"/dashboard", "/dashboard"⟩⟩
        (some (401, .obj []))
        ((ApiClient.respInterceptorOnError ⟨⟨true, some "tok"⟩, ⟨"/dashboard", "/dashboard"⟩⟩
          (some (401, .obj [])) .undefined).2.1)).1.location.href = "/" ∧
    (ApiClient.respInterceptorOnError ⟨⟨true, some "tok2"⟩, ⟨"/dashboard", "/dashboard"⟩⟩
        (some (401, .obj []))
        ((ApiClient.respInterceptorOnError ⟨⟨true, some "tok"⟩, ⟨"/dashboard", "/dashboard"⟩⟩
          (some (401, .obj [])) .undefined).2.1)).1.storage.stored = none :=
  ⟨rfl, rfl, rfl⟩

/-- C4 amended: on a 401 response (with the — always untouched — retry
flag not set) the stored credential is cleared and, off the login view,
the location is redirected to the entry point; the flag is returned
unchanged, so it provides no once-per-request protection (repeated
redirects are nevertheless not observed, because a retried sub-call never
reaches the network); after the clear, the next outgoing request gets no
Authorization header; and the error thrown is the 401 classification. -/
theorem claim_C4_unauthorized_handling_amended (b : Browser) (status : Int) (data : JsVal)
    (retryFlag : JsVal) (now : Int) (cfg : ReqConfig)
    (hw : b.storage.hasWindow = true) (h401 : status = 401)
    (hflag : jsTruthy retryFlag = false)
    (hcfg : cfg.headers.lookup "Authorization" = none) :
    (ApiClient.respInterceptorOnError b (some (status, data)) retryFlag).1.storage.stored =
      none ∧
    (strContains b.location.pathname "/login" = false →
      (ApiClient.respInterceptorOnError b (some (status, data)) retryFlag).1.location.href =
        "/") ∧
    (ApiClient.respInterceptorOnError b (some (status, data)) retryFlag).2.1 = retryFlag ∧
    ((ApiClient.requestInterceptor
        (ApiClient.respInterceptorOnError b (some (status, data)) retryFlag).1.storage now
        cfg).headers.lookup "Authorization") = none ∧
    (ApiClient.respInterceptorOnError b (some (status, data)) retryFlag).2.2 =
      ApiClient.handleError (.httpResponse status data) := by
  subst h401
  have hsto2 : (ApiClient.respInterceptorOnError b (some (401, data)) retryFlag).1.storage =
      TokenManager.removeToken b.storage := by
    simp only [ApiClient.respInterceptorOnError, hflag, hw]
    by_cases hpath : strContains b.location.pathname "/login" = true <;> simp [hpath]
  have hcondf : (jsTruthy (TokenManager.getToken (TokenManager.removeToken b.storage)) &&
      !(ApiClient.tokenExpiredJs
        (TokenManager.getToken (TokenManager.removeToken b.storage)) now) &&
      !(cfg.url == "/auth/login-init" || cfg.url == "/auth/verify-otp")) = false := by
    simp [TokenManager.getToken, TokenManager.removeToken, hw, jsTruthy]
  refine ⟨?_, ?_, ?_, ?_, ?_⟩
  · rw [hsto2]
    simp [TokenManager.removeToken, hw]
  · intro hp
    simp [ApiClient.respInterceptorOnError, hflag, hw, hp]
  · rfl
  · rw [hsto2]
    exact noattach_core _ now cfg hcfg hcondf
  · rfl

/-- C4 witness: a concrete 401 on /dashboard clears the token and
redirects. -/
theorem claim_C4_witness :
    (ApiClient.respInterceptorOnError ⟨⟨true, some "tok"⟩, ⟨"/dashboard", "/x"⟩⟩
        (some (401, .obj [("msg", .str "expired")])) .undefined).1.storage.stored = none ∧
    (ApiClient.respInterceptorOnError ⟨⟨true, some "tok"⟩, ⟨"/dashboard", "/x"⟩⟩
        (some (401, .obj [("msg", .str "expired")])) .undefined).1.location.href = "/" :=
  ⟨(claim_C4_unauthorized_handling_amended ⟨⟨true, some "tok"⟩, ⟨"/dashboard", "/x"⟩⟩
      401 (.obj [("msg", .str "expired")]) .undefined 0 ⟨"GET", "/auth/me", []⟩
      rfl rfl rfl rfl).1,
   (claim_C4_unauthorized_handling_amended ⟨⟨true, some "tok"⟩, ⟨"/dashboard", "/x"⟩⟩
      401 (.obj [("msg", .str "expired")]) .undefined 0 ⟨"GET", "/auth/me", []⟩
      rfl rfl rfl rfl).2.1 rfl⟩

/-- Transport behaviour for the C5 failing input: every attempt fails
with no response at all. -/
def transportNetwork : Nat → AxiosResult :=
  fun _ => .failure .network

/-- C5: the classification the module computes matches the claimed table
exactly — no response gives a Network error with status 0 and the fixed
message, 400 carries the field details from `data.errors`, and the
status switch of handleError realises the claimed mapping for every
status (first three conjuncts, plus the message pass-through for 400) —
but the classified error is not handed to the caller: with a network
failure the call enters the retry path and never settles, so no error
reaches the caller at all (last conjunct). -/
theorem claim_C5_classification_not_delivered :
    (∀ f : AxiosFailure, errorKindOf (ApiClient.handleError f) = claimClassification f) ∧
    ApiClient.handleError .network =
      ⟨"NetworkError", "Network connection failed. Please check your internet connection.",
        0, some "NETWORK_ERROR", .undefined⟩ ∧
    (∀ body : JsVal, (ApiClient.handleError (.httpResponse 400 body)).details =
      optChainGet body "errors") ∧
    (∀ body : JsVal, (ApiClient.handleError (.httpResponse 400 body)).message =
      ApiClient.respMessage body) ∧
    ApiClient.makeRequest transportNetwork = (ApiClient.CallOutcome.hangs, [1000]) := by
  refine ⟨?_, rfl, fun _ => rfl, fun _ => rfl, rfl⟩
  intro f
  cases f with
  | network => rfl
  | httpResponse s body =>
    simp only [ApiClient.handleError, claimClassification]
    split_ifs <;> rfl

/-- C6: the bearer header is attached if and only if a credential is
stored (in a browser context), it is not expired, and the endpoint is
neither /auth/login-init nor /auth/verify-otp; when attached, its value
is "Bearer " followed by the stored token. -/
theorem claim_C6_auth_header_iff (st : TokenManager.BrowserStorage) (now : Int)
    (cfg : ReqConfig) (hcfg : cfg.headers.lookup "Authorization" = none) :
    ((ApiClient.requestInterceptor st now cfg).headers.lookup "Authorization" ≠ none ↔
      ∃ t, st.hasWindow = true ∧ st.stored = some t ∧
        TokenManager.isTokenExpired t now = false ∧
        cfg.url ≠ "/auth/login-init" ∧ cfg.url ≠ "/auth/verify-otp") ∧
    (∀ t, st.hasWindow = true → st.stored = some t →
      TokenManager.isTokenExpired t now = false →
      cfg.url ≠ "/auth/login-init" → cfg.url ≠ "/auth/verify-otp" →
      (ApiClient.requestInterceptor st now cfg).headers.lookup "Authorization" =
        some ("Bearer " ++ t)) := by
  refine ⟨⟨?_, ?_⟩, ?_⟩
  · intro hne
    by_cases hcond : (jsTruthy (TokenManager.getToken st) &&
        !(ApiClient.tokenExpiredJs (TokenManager.getToken st) now) &&
        !(cfg.url == "/auth/login-init" || cfg.url == "/auth/verify-otp")) = true
    · simp only [Bool.and_eq_true] at hcond
      obtain ⟨⟨hA, hB⟩, hC⟩ := hcond
      cases hw : st.hasWindow with
      | false =>
        rw [show TokenManager.getToken st = .null by
          simp [TokenManager.getToken, hw]] at hA
        cases hA
      | true =>
        cases hs : st.stored with
        | none =>
          rw [show TokenManager.getToken st = .null by
            simp [TokenManager.getToken, hw, hs]] at hA
          cases hA
        | some t =>
          have htok : TokenManager.getToken st = .str t := by
            simp [TokenManager.getToken, hw, hs]
          rw [htok] at hB
          have hexp : TokenManager.isTokenExpired t now = false := by
            simpa [ApiClient.tokenExpiredJs] using hB
          have hu1 : cfg.url ≠ "/auth/login-init" := by
            intro h
            simp [h] at hC
          have hu2 : cfg.url ≠ "/auth/verify-otp" := by
            intro h
            simp [h] at hC
          exact ⟨t, rfl, rfl, hexp, hu1, hu2⟩
    · have hfalse : (jsTruthy (TokenManager.getToken st) &&
          !(ApiClient.tokenExpiredJs (TokenManager.getToken st) now) &&
          !(cfg.url == "/auth/login-init" || cfg.url == "/auth/verify-otp")) = false := by
        revert hcond
        cases (jsTruthy (TokenManager.getToken st) &&
          !(ApiClient.tokenExpiredJs (TokenManager.getToken st) now) &&
          !(cfg.url == "/auth/login-init" || cfg.url == "/auth/verify-otp")) <;> simp
      exact absurd (noattach_core st now cfg hcfg hfalse) hne
  · rintro ⟨t, hw, hs, hexp, hu1, hu2⟩
    rw [attach_core st now cfg t hw hs hexp hu1 hu2]
    simp
  · intro t hw hs hexp hu1 hu2
    exact attach_core st now cfg t hw hs hexp hu1 hu2

/-- C6 witness: a stored token with `exp` 5 at time 4 is attached to a
GET /auth/me request as a bearer header. -/
theorem claim_C6_witness :
    (ApiClient.requestInterceptor ⟨true, some "x.eyJleHAiOjV9.y"⟩ 4
        ⟨"GET", "/auth/me", []⟩).headers.lookup "Authorization" =
      some ("Bearer " ++ "x.eyJleHAiOjV9.y") :=
  (claim_C6_auth_header_iff ⟨true, some "x.eyJleHAiOjV9.y"⟩ 4
      ⟨"GET", "/auth/me", []⟩ rfl).2 "x.eyJleHAiOjV9.y" rfl rfl rfl
    (by decide) (by decide)

/-- C7 counterexample: after removeToken, getToken returns the JavaScript
value null (what localStorage.getItem yields for an absent key), which is
not the value undefined the claim names. -/
theorem claim_C7_counterexample :
    TokenManager.getToken (TokenManager.removeToken ⟨true, some "tok"⟩) = JsVal.null ∧
    JsVal.null ≠ JsVal.undefined :=
  ⟨rfl, fun h => nomatch h⟩

/-- C7 amended: in a browser context, immediately after setToken(t) the
getter returns exactly t, and immediately after removeToken it returns
null, the absent value. -/
theorem claim_C7_round_trip_amended (st : TokenManager.BrowserStorage) (t : String)
    (hw : st.hasWindow = true) :
    TokenManager.getToken (TokenManager.setToken st t) = .str t ∧
    TokenManager.getToken (TokenManager.removeToken st) = .null := by
  simp [TokenManager.getToken, TokenManager.setToken, TokenManager.removeToken, hw]

/-- C7 witness: the round trip at the token "abc.def.ghi". -/
theorem claim_C7_witness :
    TokenManager.getToken (TokenManager.setToken ⟨true, none⟩ "abc.def.ghi") =
      .str "abc.def.ghi" ∧
    TokenManager.getToken (TokenManager.removeToken ⟨true, none⟩) = .null :=
  claim_C7_round_trip_amended ⟨true, none⟩ "abc.def.ghi" rfl

/-- C8: the body unwrapping of a successful response agrees with the
spec wording — an object with a defined `data` member yields that member,
anything else is returned as-is — and a call whose transport succeeds
returns exactly the unwrapped body (and settles immediately, with no
backoff delays). -/
theorem claim_C8_envelope_unwrapping (body : JsVal) :
    ApiClient.unwrapData body = specUnwrap body ∧
    (∀ transport : Nat → AxiosResult, transport 0 = .success body →
      ApiClient.makeRequest transport = (.success (specUnwrap body), [])) := by
  refine ⟨unwrapData_eq_specUnwrap body, ?_⟩
  intro transport h
  show ApiClient.makeRequestFuel transport (4 + 1) false 0 = _
  rw [makeRequestFuel_step, h]
  dsimp only
  rw [unwrapData_eq_specUnwrap body]

/-- C8 witness: a body wrapped in a data envelope is unwrapped. -/
theorem claim_C8_witness :
    ApiClient.makeRequest (fun _ => .success (.obj [("data", .arr [.num 1, .num 2])])) =
      (.success (.arr [.num 1, .num 2]), []) :=
  (claim_C8_envelope_unwrapping (.obj [("data", .arr [.num 1, .num 2])])).2
    (fun _ => .success (.obj [("data", .arr [.num 1, .num 2])])) rfl

/-- C9: whenever the awaited logout call settles (returns or throws), the
`finally` block has cleared the stored credential, and the settled
outcome is propagated unchanged. -/
theorem claim_C9_logout_clears_token (transport : Nat → AxiosResult)
    (st : TokenManager.BrowserStorage) (hw : st.hasWindow = true)
    (hsettle : (ApiClient.makeRequest transport).1 ≠ ApiClient.CallOutcome.hangs) :
    (authApi.logout transport st).2.stored = none ∧
    (authApi.logout transport st).1 = (ApiClient.makeRequest transport).1 := by
  unfold authApi.logout
  cases h : (ApiClient.makeRequest transport).1 with
  | hangs => exact absurd h hsettle
  | success v => simp [TokenManager.removeToken, hw]
  | failure e => simp [TokenManager.removeToken, hw]

/-- Transport behaviour for the C9 witness: the logout POST succeeds. -/
def transportLogoutOk : Nat → AxiosResult :=
  fun _ => .success (.obj [("msg", .str "Logged out")])

/-- C9 witness: after a successful logout the store holds nothing. -/
theorem claim_C9_witness :
    (authApi.logout transportLogoutOk ⟨true, some "abc.def.ghi"⟩).2.stored = none :=
  (claim_C9_logout_clears_token transportLogoutOk ⟨true, some "abc.def.ghi"⟩ rfl
    (fun h => nomatch h)).1

/-- C10: a response with status 502, 503 or 504 is collapsed to a
ServerError whose status field is 500 and whose message is the fixed
server-unavailable text; the original status and any server-supplied
message are discarded. -/
theorem claim_C10_server_error_collapse (s : Int) (body : JsVal)
    (h : s = 502 ∨ s = 503 ∨ s = 504) :
    ApiClient.handleError (.httpResponse s body) =
      ⟨"ServerError", "Server is currently unavailable. Please try again later.", 500,
        some "SERVER_ERROR", .undefined⟩ := by
  rcases h with h | h | h <;> subst h <;> rfl

/-- C10 witness: a 503 with its own message is reported as the fixed
status-500 ServerError. -/
theorem claim_C10_witness :
    ApiClient.handleError (.httpResponse 503 (.obj [("message", .str "upstream down")])) =
      ⟨"ServerError", "Server is currently unavailable. Please try again later.", 500,
        some "SERVER_ERROR", .undefined⟩ :=
  claim_C10_server_error_collapse 503 (.obj [("message", .str "upstream down")])
    (Or.inr (Or.inl rfl))
